import Mathlib

/-!
# Alertable socket calls (mono/metadata/socket-io-windows.c)

A shallow embedding of the Windows socket wrappers of Mono: `set_blocking`,
`get_socket_timeout`, `alertable_socket_wait`, the text-expanded call wrapper
`ALERTABLE_SOCKET_CALL` and its eight instantiations.

The C code talks to Winsock.  Every native call is embedded as a function on an
explicit `World` (the thread's last-error value, the blocking mode of the socket the
call is made on, and the log of native calls made so far).  What a native call
answers is not decided by the code, so it is read from an environment `Env` of
replies: the k-th invocation of the wrapped operation answers `env.op k`, the k-th
`ioctlsocket` answers `env.ioctl k`, and so on.  All theorems quantify over `env`.

The `while` loop of the wrapper need not terminate (an operation may signal
would-block for ever), so the loop takes a fuel argument bounding its iterations.
`g_assert` aborts the process; that is the `Run.aborted` outcome.

Results of type `SOCKET` are represented by the value the loop test of the wrapper
reads, `(int) ret`; `INVALID_SOCKET` and `SOCKET_ERROR` both read as `-1`.

`alertable_TransmitFile` does not go through `ALERTABLE_SOCKET_CALL` and is not embedded.
-/

namespace SocketIoWindows

/-! ## Platform constants (winsock2.h / winerror.h) -/

/-- Platform constant `SOCKET_ERROR`. -/
def SOCKET_ERROR : Int := -1
/-- Platform constant `INVALID_SOCKET`, `(SOCKET)(~0)`, as read through `(int)`. -/
def INVALID_SOCKET : Int := -1
/-- Platform constant `WSA_INFINITE`. -/
def WSA_INFINITE : Nat := 0xFFFFFFFF
/-- Platform constant `WSAEINTR`. -/
def WSAEINTR : Int := 10004
/-- Platform constant `WSAEWOULDBLOCK`. -/
def WSAEWOULDBLOCK : Int := 10035
/-- Platform constant `WSAETIMEDOUT`. -/
def WSAETIMEDOUT : Int := 10060
/-- Platform constant `WSA_IO_PENDING` (`ERROR_IO_PENDING`). -/
def WSA_IO_PENDING : Int := 997
/-- Platform constant `WSA_WAIT_EVENT_0`. -/
def WSA_WAIT_EVENT_0 : Nat := 0
/-- Platform constant `WSA_WAIT_IO_COMPLETION`. -/
def WSA_WAIT_IO_COMPLETION : Nat := 0xC0
/-- Platform constant `WSA_WAIT_TIMEOUT`. -/
def WSA_WAIT_TIMEOUT : Nat := 258
/-- Platform constant `FD_READ_BIT`. -/
def FD_READ_BIT : Nat := 0
/-- Platform constant `FD_WRITE_BIT`. -/
def FD_WRITE_BIT : Nat := 1
/-- Platform constant `FD_ACCEPT_BIT`. -/
def FD_ACCEPT_BIT : Nat := 3
/-- Platform constant `FD_CONNECT_BIT`. -/
def FD_CONNECT_BIT : Nat := 4
/-- Platform constant `FD_CLOSE_BIT`. -/
def FD_CLOSE_BIT : Nat := 5
/-- Platform constant `FD_CLOSE`, `1 << FD_CLOSE_BIT`. -/
def FD_CLOSE : Nat := 32
/-- Platform constant `SO_SNDTIMEO`. -/
def SO_SNDTIMEO : Int := 0x1005
/-- Platform constant `SO_RCVTIMEO`. -/
def SO_RCVTIMEO : Int := 0x1006

/-! ## The world and the native calls -/

/-- One native call, as logged. -/
inductive Event where
  | ioctlsocket (non_block : Nat)
  | op
  | getsockopt (optname : Int)
  | WSACreateEvent
  | WSAEventSelect (registers : Bool) (mask : Nat)
  | WSAWaitForMultipleEvents (timeout : Nat)
  | WSAEnumNetworkEvents
  | WSACloseEvent
deriving DecidableEq, Repr

/-- State the wrappers read and write: the thread-local last error, the mode of the
socket (`FIONBIO`), and the log of native calls. -/
structure World where
  lastError : Int
  nonBlocking : Bool
  trace : List Event
deriving DecidableEq, Repr

/-- Outcome of running a piece of the C code. -/
inductive Run (α : Type) where
  | done (val : α) (w : World)
  | aborted (w : World)
  | outOfFuel
deriving DecidableEq, Repr

/-- Answer of a native call that reports success or failure. -/
structure Status where
  failed : Bool
  setErr : Option Int

/-- Answer of the wrapped operation: its return value and the last-error code it
stores, if it stores one. -/
structure OpReply where
  ret : Int
  setErr : Option Int

/-- Answer of `getsockopt`: status and the `DWORD` written to the option buffer. -/
structure SockoptReply where
  failed : Bool
  setErr : Option Int
  value : Nat

/-- The record `WSANETWORKEVENTS`. -/
structure WSANETWORKEVENTS where
  lNetworkEvents : Nat
  iErrorCode : Nat → Int

/-- Answers of the native calls made during one `alertable_socket_wait`. -/
structure WaitReply where
  create : Status
  select : Status
  waitRet : Nat
  waitErr : Option Int
  enum : Status
  ne : WSANETWORKEVENTS
  deselect : Status
  close : Status

/-- The environment: what each native call answers, by call number. -/
structure Env where
  op : Nat → OpReply
  ioctl : Nat → Status
  getsockopt : Nat → Int → SockoptReply
  wait : Nat → WaitReply

/-- Number of invocations of the wrapped operation in a log. -/
def opCalls (tr : List Event) : Nat :=
  tr.countP (fun e => e matches .op)

/-- Number of `ioctlsocket` calls in a log. -/
def ioctlCalls (tr : List Event) : Nat :=
  tr.countP (fun e => e matches .ioctlsocket _)

/-- Number of `getsockopt` calls in a log. -/
def sockoptCalls (tr : List Event) : Nat :=
  tr.countP (fun e => e matches .getsockopt _)

/-- Number of waits started in a log; every `alertable_socket_wait` calls
`WSACreateEvent` exactly once. -/
def waitCalls (tr : List Event) : Nat :=
  tr.countP (fun e => e matches .WSACreateEvent)

/-- Timeouts handed to `WSAWaitForMultipleEvents` in a log, oldest first. -/
def waitTimeouts (tr : List Event) : List Nat :=
  tr.filterMap (fun e => match e with
    | .WSAWaitForMultipleEvents t => some t
    | _ => none)

/-- Append a native call to the log. -/
def World.emit (w : World) (e : Event) : World :=
  { w with trace := w.trace ++ [e] }

/-- Store the last-error code a native call leaves, if it leaves one. -/
def World.stored (w : World) (o : Option Int) : World :=
  match o with
  | none => w
  | some e => { w with lastError := e }

/-- `WSASetLastError`. -/
def WSASetLastError (error : Int) (w : World) : World :=
  { w with lastError := error }

/-- `WSAGetLastError`. -/
def WSAGetLastError (w : World) : Int :=
  w.lastError

/-- `ioctlsocket (sock, FIONBIO, &non_block)`: on success the socket takes the
requested mode. -/
def ioctlsocket (env : Env) (non_block : Nat) (w : World) : Int × World :=
  let r := env.ioctl (ioctlCalls w.trace)
  let w1 := (w.emit (.ioctlsocket non_block)).stored r.setErr
  if r.failed then (SOCKET_ERROR, w1)
  else (0, { w1 with nonBlocking := non_block != 0 })

/-- `getsockopt (sock, SOL_SOCKET, optname, &timeout, &optlen)`: return code and the
content of the buffer afterwards (untouched on failure). -/
def getsockopt (env : Env) (optname : Int) (buf : Nat) (w : World) : Int × Nat × World :=
  let r := env.getsockopt (sockoptCalls w.trace) optname
  let w1 := (w.emit (.getsockopt optname)).stored r.setErr
  if r.failed then (SOCKET_ERROR, buf, w1) else (0, r.value, w1)

/-- One invocation of the wrapped operation, `op (sock, __VA_ARGS__)`. -/
def op (env : Env) (w : World) : Int × World :=
  let r := env.op (opCalls w.trace)
  (r.ret, (w.emit .op).stored r.setErr)

/-- A native call of a wait that only reports a status. -/
def statusCall (s : Status) (e : Event) (w : World) : Bool × World :=
  (!s.failed, (w.emit e).stored s.setErr)

/-! ## The C functions -/

/-- Source lines 14-18. -/
def set_blocking (env : Env) (block : Bool) (w : World) : Bool × World :=
  let non_block : Nat := if block then 0 else 1
  let r := ioctlsocket env non_block w
  (r.1 != SOCKET_ERROR, r.2)

/-- Source lines 20-31. -/
def get_socket_timeout (env : Env) (optname : Int) (w : World) : Nat × World :=
  let timeout : Nat := 0
  let r := getsockopt env optname timeout w
  if r.1 == SOCKET_ERROR then
    (WSA_INFINITE, WSASetLastError 0 r.2.2)
  else
    let timeout := r.2.1
    let timeout := if timeout == 0 then WSA_INFINITE else timeout
    (timeout, r.2.2)

/-- Source lines 78-85: deregister, close the event, store `error` unless it is
still `-1`, return `success`. -/
def wait_leave (r : WaitReply) (success : Bool) (error : Int) (w : World) : Run Bool :=
  let w1 := (statusCall r.deselect (.WSAEventSelect false 0) w).2
  let w2 := (statusCall r.close .WSACloseEvent w1).2
  .done success (if error != -1 then WSASetLastError error w2 else w2)

/-- Source lines 41-86. -/
def alertable_socket_wait (env : Env) (event_bit : Nat) (w : World) : Run Bool :=
  let r := env.wait (waitCalls w.trace)
  let success := false
  let error : Int := -1
  let tw :=
    if event_bit == FD_READ_BIT || event_bit == FD_WRITE_BIT then
      get_socket_timeout env (if event_bit == FD_READ_BIT then SO_RCVTIMEO else SO_SNDTIMEO) w
    else (WSA_INFINITE, w)
  let timeout := tw.1
  let w1 := WSASetLastError 0 tw.2
  let ev := statusCall r.create .WSACreateEvent w1
  if ev.1 then
    let sel := statusCall r.select (.WSAEventSelect true ((1 <<< event_bit) ||| FD_CLOSE)) ev.2
    if sel.1 then
      let w3 := (sel.2.emit (.WSAWaitForMultipleEvents timeout)).stored r.waitErr
      let ret := r.waitRet
      if ret == WSA_WAIT_IO_COMPLETION then
        wait_leave r success WSAEINTR w3
      else if ret == WSA_WAIT_TIMEOUT then
        wait_leave r success WSAETIMEDOUT w3
      else if ret != WSA_WAIT_EVENT_0 then
        -- line 62: `g_assert (ret == WSA_WAIT_EVENT_0)`
        .aborted w3
      else
        let en := statusCall r.enum .WSAEnumNetworkEvents w3
        let ne := r.ne
        if en.1 then
          if ne.lNetworkEvents &&& (1 <<< event_bit) != 0 && ne.iErrorCode event_bit != 0 then
            wait_leave r success (ne.iErrorCode event_bit) en.2
          -- line 68, as written: the fired bits are masked with `FD_CLOSE_BIT`
          else if ne.lNetworkEvents &&& FD_CLOSE_BIT != 0 && ne.iErrorCode FD_CLOSE_BIT != 0 then
            wait_leave r success (ne.iErrorCode FD_CLOSE_BIT) en.2
          else
            wait_leave r true 0 en.2
        else
          wait_leave r success error en.2
    else
      let w3 := (statusCall r.close .WSACloseEvent sel.2).2
      .done success (if error != -1 then WSASetLastError error w3 else w3)
  else
    .done success (if error != -1 then WSASetLastError error ev.2 else ev.2)

/-- Source lines 92-98, the `while` loop of `ALERTABLE_SOCKET_CALL`; the value is the
last value assigned to `ret`. -/
def call_loop (env : Env) (event_bit : Nat) (repeat_ : Bool) : Nat → World → Run Int
  | 0, _ => .outOfFuel
  | fuel + 1, w =>
    let r := op env w
    let ret := r.1
    if ret == -1 then
      let _error := WSAGetLastError r.2
      if _error != WSAEWOULDBLOCK && _error != WSA_IO_PENDING then
        .done ret r.2
      else
        match alertable_socket_wait env event_bit r.2 with
        | .done success w2 =>
          if !success || !repeat_ then .done ret w2
          else call_loop env event_bit repeat_ fuel w2
        | .aborted w2 => .aborted w2
        | .outOfFuel => .outOfFuel
    else
      .done ret r.2

/-- Source lines 88-109; `ret` is the value the caller initialised its result
variable with. -/
def ALERTABLE_SOCKET_CALL (env : Env) (event_bit : Nat) (blocking repeat_ : Bool)
    (ret : Int) (fuel : Nat) (w : World) : Run Int :=
  let body : Run Int :=
    if blocking then
      let sb := set_blocking env false w
      if sb.1 then
        match call_loop env event_bit repeat_ fuel sb.2 with
        | .done ret w1 =>
          let _saved_error := WSAGetLastError w1
          let w2 := (set_blocking env true w1).2
          .done ret (WSASetLastError _saved_error w2)
        | .aborted w1 => .aborted w1
        | .outOfFuel => .outOfFuel
      else
        .done ret sb.2
    else
      let r := op env w
      .done r.1 r.2
  match body with
  | .done ret w1 =>
    let _saved_error := WSAGetLastError w1
    .done ret (WSASetLastError _saved_error w1)
  | .aborted w1 => .aborted w1
  | .outOfFuel => .outOfFuel

/-- Source lines 111-116. -/
def alertable_accept (env : Env) (blocking : Bool) (fuel : Nat) (w : World) : Run Int :=
  ALERTABLE_SOCKET_CALL env FD_ACCEPT_BIT blocking true INVALID_SOCKET fuel w

/-- Source lines 118-124. -/
def alertable_connect (env : Env) (blocking : Bool) (fuel : Nat) (w : World) : Run Int :=
  match ALERTABLE_SOCKET_CALL env FD_CONNECT_BIT blocking false SOCKET_ERROR fuel w with
  | .done _ w1 => .done (if WSAGetLastError w1 != 0 then SOCKET_ERROR else 0) w1
  | .aborted w1 => .aborted w1
  | .outOfFuel => .outOfFuel

/-- Source lines 126-131. -/
def alertable_recv (env : Env) (blocking : Bool) (fuel : Nat) (w : World) : Run Int :=
  ALERTABLE_SOCKET_CALL env FD_READ_BIT blocking true SOCKET_ERROR fuel w

/-- Source lines 133-138. -/
def alertable_recvfrom (env : Env) (blocking : Bool) (fuel : Nat) (w : World) : Run Int :=
  ALERTABLE_SOCKET_CALL env FD_READ_BIT blocking true SOCKET_ERROR fuel w

/-- Source lines 140-145. -/
def alertable_WSARecv (env : Env) (blocking : Bool) (fuel : Nat) (w : World) : Run Int :=
  ALERTABLE_SOCKET_CALL env FD_READ_BIT blocking true SOCKET_ERROR fuel w

/-- Source lines 147-152. -/
def alertable_send (env : Env) (blocking : Bool) (fuel : Nat) (w : World) : Run Int :=
  ALERTABLE_SOCKET_CALL env FD_WRITE_BIT blocking false SOCKET_ERROR fuel w

/-- Source lines 154-159. -/
def alertable_sendto (env : Env) (blocking : Bool) (fuel : Nat) (w : World) : Run Int :=
  ALERTABLE_SOCKET_CALL env FD_WRITE_BIT blocking false SOCKET_ERROR fuel w

/-- Source lines 161-166. -/
def alertable_WSASend (env : Env) (blocking : Bool) (fuel : Nat) (w : World) : Run Int :=
  ALERTABLE_SOCKET_CALL env FD_WRITE_BIT blocking false SOCKET_ERROR fuel w

/-! ## The eight entry points as one family -/

/-- The entry points that instantiate `ALERTABLE_SOCKET_CALL`. -/
inductive Entry where
  | accept | connect | recv | recvfrom | WSARecv | send | sendto | WSASend
deriving DecidableEq, Repr

/-- The `event_bit` argument of the instantiation. -/
def Entry.event_bit : Entry → Nat
  | .accept => FD_ACCEPT_BIT
  | .connect => FD_CONNECT_BIT
  | .recv | .recvfrom | .WSARecv => FD_READ_BIT
  | .send | .sendto | .WSASend => FD_WRITE_BIT

/-- The `repeat` argument of the instantiation. -/
def Entry.retries : Entry → Bool
  | .accept | .recv | .recvfrom | .WSARecv => true
  | .connect | .send | .sendto | .WSASend => false

/-- Run an entry point. -/
def Entry.run : Entry → Env → Bool → Nat → World → Run Int
  | .accept => alertable_accept
  | .connect => alertable_connect
  | .recv => alertable_recv
  | .recvfrom => alertable_recvfrom
  | .WSARecv => alertable_WSARecv
  | .send => alertable_send
  | .sendto => alertable_sendto
  | .WSASend => alertable_WSASend

/-! ## Vocabulary for the replies of the platform -/

/-- The operation fails with `-1` and stores `WSAEWOULDBLOCK` or `WSA_IO_PENDING`. -/
def OpReply.wouldBlock (r : OpReply) : Bool :=
  r.ret == -1 && (r.setErr == some WSAEWOULDBLOCK || r.setErr == some WSA_IO_PENDING)

/-- The event is created and registered, so `WSAWaitForMultipleEvents` is called. -/
def WaitReply.waits (r : WaitReply) : Bool :=
  !r.create.failed && !r.select.failed

/-- The alertable wait is woken by an interruption (`WSA_WAIT_IO_COMPLETION`). -/
def WaitReply.interrupted (r : WaitReply) : Bool :=
  r.waits && r.waitRet == WSA_WAIT_IO_COMPLETION

/-- The alertable wait times out (`WSA_WAIT_TIMEOUT`). -/
def WaitReply.timedOut (r : WaitReply) : Bool :=
  r.waits && r.waitRet == WSA_WAIT_TIMEOUT

/-- The event fires and its network-event record is obtained. -/
def WaitReply.fired (r : WaitReply) : Bool :=
  r.waits && r.waitRet == WSA_WAIT_EVENT_0 && !r.enum.failed

/-- The event fires and neither test of source lines 65 and 68 finds an error: the wait
returns `TRUE`. -/
def WaitReply.ready (event_bit : Nat) (r : WaitReply) : Bool :=
  r.fired
    && !(r.ne.lNetworkEvents &&& (1 <<< event_bit) != 0 && r.ne.iErrorCode event_bit != 0)
    && !(r.ne.lNetworkEvents &&& FD_CLOSE_BIT != 0 && r.ne.iErrorCode FD_CLOSE_BIT != 0)

/-- The second world extends the first by `ops` invocations of the operation and `waits`
started waits, without any `ioctlsocket` call and with the socket mode unchanged. -/
def Extends (ops waits : Nat) (w w' : World) : Prop :=
  w'.nonBlocking = w.nonBlocking ∧
  ∃ evs, w'.trace = w.trace ++ evs ∧ opCalls evs = ops ∧ ioctlCalls evs = 0 ∧
    waitCalls evs = waits

/-- A property of the world a run stops in, however it stops. -/
def Run.All {α : Type} (P : World → Prop) : Run α → Prop
  | .done _ w => P w
  | .aborted w => P w
  | .outOfFuel => True

/-! ## Concrete worlds and environments -/

/-- A blocking socket, no error pending, nothing logged. -/
def w0 : World := { lastError := 0, nonBlocking := false, trace := [] }

/-- A native call that succeeds and stores no error. -/
def okStatus : Status := { failed := false, setErr := none }

/-- A native call that fails and stores `e`. -/
def failStatus (e : Int) : Status := { failed := true, setErr := some e }

/-- A wait whose event fires, the record reporting nothing. -/
def readyReply : WaitReply :=
  { create := okStatus, select := okStatus, waitRet := WSA_WAIT_EVENT_0, waitErr := none,
    enum := okStatus, ne := { lNetworkEvents := 0, iErrorCode := fun _ => 0 },
    deselect := okStatus, close := okStatus }

/-- A wait woken by an interruption. -/
def interruptedReply : WaitReply := { readyReply with waitRet := WSA_WAIT_IO_COMPLETION }

/-- A wait that times out. -/
def timedOutReply : WaitReply := { readyReply with waitRet := WSA_WAIT_TIMEOUT }

/-- A wait whose event fires with only `FD_CLOSE` set, carrying `WSAECONNRESET`. -/
def closeErrorReply : WaitReply :=
  { readyReply with
    ne := { lNetworkEvents := FD_CLOSE,
            iErrorCode := fun i => if i = FD_CLOSE_BIT then 10054 else 0 } }

/-- The operation signals would-block. -/
def wouldBlockReply : OpReply := { ret := -1, setErr := some WSAEWOULDBLOCK }

/-- No timeout configured in either direction. -/
def noTimeout : Nat → Int → SockoptReply :=
  fun _ _ => { failed := false, setErr := none, value := 0 }

/-- The operation signals would-block once and would return 5 from then on; every
other native call succeeds and every wait is ready. -/
def envOnce : Env :=
  { op := fun k => if k = 0 then wouldBlockReply else { ret := 5, setErr := none }
    ioctl := fun _ => okStatus
    getsockopt := noTimeout
    wait := fun _ => readyReply }

/-- As `envOnce`, with two would-block answers before the 5. -/
def envTwice : Env :=
  { envOnce with op := fun k => if k < 2 then wouldBlockReply else { ret := 5, setErr := none } }

/-- As `envOnce`, but the first wait is woken by an interruption. -/
def envInterrupted : Env := { envOnce with wait := fun _ => interruptedReply }

/-- As `envOnce`, but the first wait times out. -/
def envTimedOut : Env := { envOnce with wait := fun _ => timedOutReply }

/-- As `envInterrupted`, and the second `ioctlsocket` (the restoration) fails with
`WSAEINVAL`. -/
def envRestoreFails : Env :=
  { envInterrupted with ioctl := fun k => if k = 1 then failStatus 10022 else okStatus }

/-- The operation would return 7 at once, but the first `ioctlsocket` fails with
`WSAENOTSOCK`. -/
def envSwitchFails : Env :=
  { envOnce with
    op := fun _ => { ret := 7, setErr := none }
    ioctl := fun _ => failStatus 10038 }

/-- As `envOnce`, but the wait sees `FD_CLOSE` fire with an error. -/
def envCloseError : Env := { envOnce with wait := fun _ => closeErrorReply }

/-- Receive timeout not configured (0), send timeout 250 ms. -/
def envTimeouts : Env :=
  { envOnce with
    getsockopt := fun _ optname =>
      { failed := false, setErr := none, value := if optname = SO_SNDTIMEO then 250 else 0 } }

/-! ## Bookkeeping lemmas -/

@[simp] theorem stored_trace (w : World) (o : Option Int) : (w.stored o).trace = w.trace := by
  cases o <;> rfl

@[simp] theorem stored_nonBlocking (w : World) (o : Option Int) :
    (w.stored o).nonBlocking = w.nonBlocking := by
  cases o <;> rfl

@[simp] theorem stored_some (w : World) (e : Int) : (w.stored (some e)).lastError = e := rfl

@[simp] theorem stored_none (w : World) : w.stored none = w := rfl

@[simp] theorem emit_trace (w : World) (e : Event) : (w.emit e).trace = w.trace ++ [e] := rfl

@[simp] theorem emit_nonBlocking (w : World) (e : Event) :
    (w.emit e).nonBlocking = w.nonBlocking := rfl

@[simp] theorem emit_lastError (w : World) (e : Event) : (w.emit e).lastError = w.lastError := rfl

@[simp] theorem setLastError_trace (w : World) (e : Int) :
    (WSASetLastError e w).trace = w.trace := rfl

@[simp] theorem setLastError_nonBlocking (w : World) (e : Int) :
    (WSASetLastError e w).nonBlocking = w.nonBlocking := rfl

@[simp] theorem setLastError_lastError (w : World) (e : Int) :
    (WSASetLastError e w).lastError = e := rfl

theorem opCalls_append (a b : List Event) : opCalls (a ++ b) = opCalls a + opCalls b := by
  simp [opCalls]

theorem ioctlCalls_append (a b : List Event) :
    ioctlCalls (a ++ b) = ioctlCalls a + ioctlCalls b := by
  simp [ioctlCalls]

theorem waitCalls_append (a b : List Event) : waitCalls (a ++ b) = waitCalls a + waitCalls b := by
  simp [waitCalls]

theorem Extends.refl (w : World) : Extends 0 0 w w :=
  ⟨rfl, [], by simp, rfl, rfl, rfl⟩

theorem Extends.trans {a b c d : Nat} {w w1 w2 : World} (h : Extends a b w w1)
    (h' : Extends c d w1 w2) : Extends (a + c) (b + d) w w2 := by
  obtain ⟨hnb, evs, htr, h1, h2, h3⟩ := h
  obtain ⟨hnb', evs', htr', h1', h2', h3'⟩ := h'
  refine ⟨hnb'.trans hnb, evs ++ evs', by simp [htr', htr], ?_, ?_, ?_⟩
  · rw [opCalls_append, h1, h1']
  · rw [ioctlCalls_append, h2, h2']
  · rw [waitCalls_append, h3, h3']

theorem Extends.call {a b : Nat} {w w' : World} (h : Extends a b w w') (e : Event)
    (o : Option Int) (hi : ioctlCalls [e] = 0) :
    Extends (a + opCalls [e]) (b + waitCalls [e]) w ((w'.emit e).stored o) := by
  obtain ⟨hnb, evs, htr, h1, h2, h3⟩ := h
  refine ⟨by simp [hnb], evs ++ [e], by simp [htr], ?_, ?_, ?_⟩
  · rw [opCalls_append, h1]
  · rw [ioctlCalls_append, h2, hi]
  · rw [waitCalls_append, h3]

theorem Extends.setErr {a b : Nat} {w w' : World} (h : Extends a b w w') (e : Int) :
    Extends a b w (WSASetLastError e w') := h

theorem Extends.setErrIf {a b : Nat} {w w' : World} (h : Extends a b w w') (c : Prop)
    [Decidable c] (e : Int) : Extends a b w (if c then WSASetLastError e w' else w') := by
  split_ifs
  · exact h
  · exact h

theorem Extends.status {a b : Nat} {w w' : World} (h : Extends a b w w') (s : Status)
    (e : Event) (hi : ioctlCalls [e] = 0) :
    Extends (a + opCalls [e]) (b + waitCalls [e]) w (statusCall s e w').2 :=
  h.call e s.setErr hi

theorem Extends.opCalls_eq {a b : Nat} {w w' : World} (h : Extends a b w w') :
    opCalls w'.trace = opCalls w.trace + a := by
  obtain ⟨_, evs, htr, h1, _, _⟩ := h
  rw [htr, opCalls_append, h1]

theorem Extends.waitCalls_eq {a b : Nat} {w w' : World} (h : Extends a b w w') :
    waitCalls w'.trace = waitCalls w.trace + b := by
  obtain ⟨_, evs, htr, _, _, h3⟩ := h
  rw [htr, waitCalls_append, h3]

theorem Extends.ioctlCalls_eq {a b : Nat} {w w' : World} (h : Extends a b w w') :
    ioctlCalls w'.trace = ioctlCalls w.trace := by
  obtain ⟨_, evs, htr, _, h2, _⟩ := h
  rw [htr, ioctlCalls_append, h2, Nat.add_zero]

/-! ## The timeout resolver and the wait primitive -/

theorem get_socket_timeout_extends (env : Env) (optname : Int) (w : World) :
    Extends 0 0 w (get_socket_timeout env optname w).2 := by
  have h := (Extends.refl w).call (.getsockopt optname)
    (env.getsockopt (sockoptCalls w.trace) optname).setErr rfl
  unfold get_socket_timeout getsockopt
  simp only []
  split_ifs <;> exact h

theorem wait_leave_extends {a b : Nat} {w w' : World} (h : Extends a b w w') (r : WaitReply)
    (success : Bool) (error : Int) : (wait_leave r success error w').All (Extends a b w) := by
  unfold wait_leave
  exact ((h.status r.deselect (.WSAEventSelect false 0) rfl).status r.close
    .WSACloseEvent rfl).setErrIf _ _

/-- Every way out of a wait extends the world by one started wait and no invocation of
the operation. -/
theorem wait_extends (env : Env) (event_bit : Nat) (w : World) :
    (alertable_socket_wait env event_bit w).All (Extends 0 1 w) := by
  unfold alertable_socket_wait
  generalize env.wait (waitCalls w.trace) = r
  have htw : Extends 0 0 w (if event_bit == FD_READ_BIT || event_bit == FD_WRITE_BIT then
      get_socket_timeout env (if event_bit == FD_READ_BIT then SO_RCVTIMEO else SO_SNDTIMEO) w
    else (WSA_INFINITE, w)).2 := by
    split_ifs
    · exact get_socket_timeout_extends _ _ _
    · exact get_socket_timeout_extends _ _ _
    · exact Extends.refl w
  generalize (if (event_bit == FD_READ_BIT || event_bit == FD_WRITE_BIT) = true then
      get_socket_timeout env (if (event_bit == FD_READ_BIT) = true then SO_RCVTIMEO
        else SO_SNDTIMEO) w
    else (WSA_INFINITE, w)) = tw at htw ⊢
  have h1 := (htw.setErr 0).status r.create .WSACreateEvent rfl
  have h2 := h1.status r.select (.WSAEventSelect true ((1 <<< event_bit) ||| FD_CLOSE)) rfl
  have h3 := h2.call (.WSAWaitForMultipleEvents tw.1) r.waitErr rfl
  have h4 := h3.status r.enum .WSAEnumNetworkEvents rfl
  have h5 := h2.status r.close .WSACloseEvent rfl
  simp only []
  split_ifs <;> first
    | exact wait_leave_extends h3 _ _ _
    | exact wait_leave_extends h4 _ _ _
    | exact h3
    | exact h5
    | exact h1

/-- The wait returns `TRUE`, with last error 0, when the reply is `ready`. -/
theorem wait_ready_result (env : Env) (event_bit : Nat) (w : World)
    (h : (env.wait (waitCalls w.trace)).ready event_bit = true) :
    ∃ w', alertable_socket_wait env event_bit w = .done true w' ∧ w'.lastError = 0 := by
  unfold alertable_socket_wait wait_leave statusCall
  generalize env.wait (waitCalls w.trace) = r at h
  simp only [WaitReply.ready, WaitReply.fired, WaitReply.waits, Bool.and_eq_true,
    Bool.not_eq_true', beq_iff_eq] at h
  obtain ⟨⟨⟨⟨⟨hc, hs⟩, hw⟩, he⟩, t1⟩, t2⟩ := h
  have hio : (r.waitRet == WSA_WAIT_IO_COMPLETION) = false := by rw [hw]; rfl
  have hto : (r.waitRet == WSA_WAIT_TIMEOUT) = false := by rw [hw]; rfl
  have he0 : (r.waitRet != WSA_WAIT_EVENT_0) = false := by rw [hw]; rfl
  simp only [hc, hs, he, hio, hto, he0, t1, t2, Bool.not_false, if_true, Bool.false_eq_true,
    if_false]
  exact ⟨_, rfl, rfl⟩

/-- The wait returns `FALSE` with `WSAEINTR` when it is woken by an interruption. -/
theorem wait_interrupted_result (env : Env) (event_bit : Nat) (w : World)
    (h : (env.wait (waitCalls w.trace)).interrupted = true) :
    ∃ w', alertable_socket_wait env event_bit w = .done false w' ∧ w'.lastError = WSAEINTR := by
  unfold alertable_socket_wait wait_leave statusCall
  generalize env.wait (waitCalls w.trace) = r at h
  simp only [WaitReply.interrupted, WaitReply.waits, Bool.and_eq_true,
    Bool.not_eq_true'] at h
  obtain ⟨⟨hc, hs⟩, hw⟩ := h
  simp only [hc, hs, hw, Bool.not_false, if_true]
  exact ⟨_, rfl, rfl⟩

/-- The wait returns `FALSE` with `WSAETIMEDOUT` when it times out. -/
theorem wait_timedOut_result (env : Env) (event_bit : Nat) (w : World)
    (h : (env.wait (waitCalls w.trace)).timedOut = true) :
    ∃ w', alertable_socket_wait env event_bit w = .done false w' ∧
      w'.lastError = WSAETIMEDOUT := by
  unfold alertable_socket_wait wait_leave statusCall
  generalize env.wait (waitCalls w.trace) = r at h
  simp only [WaitReply.timedOut, WaitReply.waits, Bool.and_eq_true,
    Bool.not_eq_true', beq_iff_eq] at h
  obtain ⟨⟨hc, hs⟩, hw⟩ := h
  have hio : (r.waitRet == WSA_WAIT_IO_COMPLETION) = false := by rw [hw]; rfl
  have hto : (r.waitRet == WSA_WAIT_TIMEOUT) = true := by rw [hw]; rfl
  simp only [hc, hs, hio, hto, Bool.not_false, if_true, Bool.false_eq_true, if_false]
  exact ⟨_, rfl, rfl⟩

/-! ## The operation, the mode switch and the loop -/

theorem op_extends (env : Env) (w : World) : Extends 1 0 w (op env w).2 :=
  (Extends.refl w).call .op (env.op (opCalls w.trace)).setErr rfl

theorem op_wouldBlock (env : Env) (w : World)
    (h : (env.op (opCalls w.trace)).wouldBlock = true) :
    (op env w).1 = -1 ∧
      ((op env w).2.lastError = WSAEWOULDBLOCK ∨ (op env w).2.lastError = WSA_IO_PENDING) := by
  unfold op
  generalize env.op (opCalls w.trace) = r at h
  simp only [OpReply.wouldBlock, Bool.and_eq_true, Bool.or_eq_true, beq_iff_eq] at h
  obtain ⟨h1, h2 | h2⟩ := h
  · exact ⟨h1, Or.inl (by simp [h2])⟩
  · exact ⟨h1, Or.inr (by simp [h2])⟩

theorem set_blocking_ok (env : Env) (block : Bool) (w : World)
    (h : (env.ioctl (ioctlCalls w.trace)).failed = false) :
    (set_blocking env block w).1 = true ∧
      (set_blocking env block w).2.nonBlocking = !block ∧
      (set_blocking env block w).2.trace
        = w.trace ++ [.ioctlsocket (if block then 0 else 1)] := by
  unfold set_blocking ioctlsocket
  simp only [h]
  cases block <;> simp [SOCKET_ERROR]

theorem set_blocking_failed (env : Env) (block : Bool) (w : World)
    (h : (env.ioctl (ioctlCalls w.trace)).failed = true) :
    (set_blocking env block w).1 = false ∧
      (set_blocking env block w).2.nonBlocking = w.nonBlocking ∧
      (set_blocking env block w).2.trace
        = w.trace ++ [.ioctlsocket (if block then 0 else 1)] := by
  unfold set_blocking ioctlsocket
  simp only [h]
  cases block <;> simp

theorem set_blocking_trace (env : Env) (block : Bool) (w : World) :
    (set_blocking env block w).2.trace
      = w.trace ++ [.ioctlsocket (if block then 0 else 1)] := by
  cases h : (env.ioctl (ioctlCalls w.trace)).failed
  · exact (set_blocking_ok env block w h).2.2
  · exact (set_blocking_failed env block w h).2.2

/-- One turn of the loop when the operation signals would-block or pending. -/
theorem call_loop_wouldBlock (env : Env) (event_bit : Nat) (rep : Bool) (fuel : Nat)
    (w : World) (h : (env.op (opCalls w.trace)).wouldBlock = true) :
    call_loop env event_bit rep (fuel + 1) w =
      match alertable_socket_wait env event_bit (op env w).2 with
      | .done success w2 =>
        if !success || !rep then .done (-1) w2 else call_loop env event_bit rep fuel w2
      | .aborted w2 => .aborted w2
      | .outOfFuel => .outOfFuel := by
  obtain ⟨h1, h2⟩ := op_wouldBlock env w h
  rw [call_loop]
  simp only [h1, WSAGetLastError]
  rcases h2 with h2 | h2 <;> rw [h2] <;> rfl

/-- One turn of the loop when the operation returns something else than `-1`. -/
theorem call_loop_settled (env : Env) (event_bit : Nat) (rep : Bool) (fuel : Nat)
    (w : World) (h : (env.op (opCalls w.trace)).ret ≠ -1) :
    call_loop env event_bit rep (fuel + 1) w
      = .done (env.op (opCalls w.trace)).ret (op env w).2 := by
  rw [call_loop]
  have h1 : (op env w).1 = (env.op (opCalls w.trace)).ret := rfl
  simp [h1, h]

/-- With `repeat` set, `n` turns that each signal would-block and wait successfully
lead to a world `n` invocations and `n` waits later, from which the loop goes on. -/
theorem call_loop_rounds (env : Env) (event_bit : Nat) :
    ∀ (n : Nat) (w : World),
      (∀ i, i < n → (env.op (opCalls w.trace + i)).wouldBlock = true ∧
        (env.wait (waitCalls w.trace + i)).ready event_bit = true) →
      ∃ w', Extends n n w w' ∧ (n = 0 → w' = w) ∧ (0 < n → w'.lastError = 0) ∧
        ∀ fuel, call_loop env event_bit true (n + fuel) w
          = call_loop env event_bit true fuel w' := by
  intro n
  induction n with
  | zero =>
    intro w _
    exact ⟨w, Extends.refl w, fun _ => rfl, fun h => absurd h (Nat.lt_irrefl 0),
      fun fuel => by rw [Nat.zero_add]⟩
  | succ n ih =>
    intro w h
    have h0 := h 0 (Nat.succ_pos n)
    rw [Nat.add_zero, Nat.add_zero] at h0
    have hop := op_extends env w
    have hw0 : (env.wait (waitCalls (op env w).2.trace)).ready event_bit = true := by
      rw [hop.waitCalls_eq]; exact h0.2
    obtain ⟨w2, hres, herr⟩ := wait_ready_result env event_bit (op env w).2 hw0
    have hx := wait_extends env event_bit (op env w).2
    rw [hres] at hx
    have hx2 : Extends 1 1 w w2 := hop.trans hx
    have hshift : ∀ i, i < n → (env.op (opCalls w2.trace + i)).wouldBlock = true ∧
        (env.wait (waitCalls w2.trace + i)).ready event_bit = true := by
      intro i hi
      have := h (i + 1) (Nat.succ_lt_succ hi)
      rw [hx2.opCalls_eq, hx2.waitCalls_eq]
      rwa [Nat.add_comm i 1, ← Nat.add_assoc, ← Nat.add_assoc] at this
    obtain ⟨w', hext, hz, hpos, hloop⟩ := ih w2 hshift
    refine ⟨w', ?_, fun hn => absurd hn (Nat.succ_ne_zero n), fun _ => ?_, fun fuel => ?_⟩
    · have := hx2.trans hext
      rwa [Nat.add_comm 1 n] at this
    · rcases Nat.eq_zero_or_pos n with hn | hn
      · rw [hz hn]; exact herr
      · exact hpos hn
    · rw [Nat.add_right_comm, call_loop_wouldBlock env event_bit true (n + fuel) w h0.1, hres]
      exact hloop fuel

/-- However the loop stops, it has made no `ioctlsocket` call and left the socket mode
alone. -/
theorem call_loop_extends (env : Env) (event_bit : Nat) (rep : Bool) :
    ∀ (fuel : Nat) (w : World),
      (call_loop env event_bit rep fuel w).All (fun w' => ∃ a b, Extends a b w w') := by
  intro fuel
  induction fuel with
  | zero => intro w; exact True.intro
  | succ fuel ih =>
    intro w
    have hop := op_extends env w
    have hx := wait_extends env event_bit (op env w).2
    rw [call_loop]
    simp only []
    split_ifs
    · exact ⟨_, _, hop⟩
    · cases hres : alertable_socket_wait env event_bit (op env w).2 with
      | done success w2 =>
        rw [hres] at hx
        simp only []
        split_ifs
        · exact ⟨_, _, hop.trans hx⟩
        · have h2 := ih w2
          cases hl : call_loop env event_bit rep fuel w2 with
          | done r w3 =>
            rw [hl] at h2
            obtain ⟨a, b, h3⟩ := h2
            exact ⟨_, _, (hop.trans hx).trans h3⟩
          | aborted w3 =>
            rw [hl] at h2
            obtain ⟨a, b, h3⟩ := h2
            exact ⟨_, _, (hop.trans hx).trans h3⟩
          | outOfFuel => exact True.intro
      | aborted w2 =>
        rw [hres] at hx
        exact ⟨_, _, hop.trans hx⟩
      | outOfFuel => exact True.intro
    · exact ⟨_, _, hop⟩

/-- The blocking path of the wrapper once the switch to non-blocking mode succeeded. -/
theorem wrapper_blocking (env : Env) (event_bit : Nat) (rep : Bool) (init : Int) (fuel : Nat)
    (w : World) (h : (env.ioctl (ioctlCalls w.trace)).failed = false) :
    ALERTABLE_SOCKET_CALL env event_bit true rep init fuel w =
      match call_loop env event_bit rep fuel (set_blocking env false w).2 with
      | .done ret w1 => .done ret (WSASetLastError w1.lastError (set_blocking env true w1).2)
      | .aborted w1 => .aborted w1
      | .outOfFuel => .outOfFuel := by
  unfold ALERTABLE_SOCKET_CALL
  simp only [(set_blocking_ok env false w h).1, if_true]
  cases call_loop env event_bit rep fuel (set_blocking env false w).2 <;> rfl

/-- Every entry point is the wrapper at its event bit and retry flag; `connect` then
replaces the result by a test of the last error. -/
theorem Entry.run_eq (e : Entry) (env : Env) (blocking : Bool) (fuel : Nat) (w : World) :
    e.run env blocking fuel w =
      match ALERTABLE_SOCKET_CALL env e.event_bit blocking e.retries (-1) fuel w with
      | .done r w1 =>
        .done (if e = .connect then (if w1.lastError != 0 then SOCKET_ERROR else 0) else r) w1
      | .aborted w1 => .aborted w1
      | .outOfFuel => .outOfFuel := by
  cases e <;>
    simp only [Entry.run, Entry.event_bit, Entry.retries, alertable_accept, alertable_connect,
      alertable_recv, alertable_recvfrom, alertable_WSARecv, alertable_send, alertable_sendto,
      alertable_WSASend, INVALID_SOCKET, SOCKET_ERROR, WSAGetLastError] <;>
    cases ALERTABLE_SOCKET_CALL env _ blocking _ (-1) fuel w <;> simp

/-! ## Shared steps of the claims -/

theorem set_blocking_counts (env : Env) (block : Bool) (w : World) :
    opCalls (set_blocking env block w).2.trace = opCalls w.trace ∧
    waitCalls (set_blocking env block w).2.trace = waitCalls w.trace ∧
    ioctlCalls (set_blocking env block w).2.trace = ioctlCalls w.trace + 1 := by
  rw [set_blocking_trace, opCalls_append, waitCalls_append, ioctlCalls_append]
  exact ⟨rfl, rfl, rfl⟩

/-- A turn whose operation signals would-block and whose wait returns `FALSE` ends the
loop with `-1`. -/
theorem call_loop_wait_failed (env : Env) (event_bit : Nat) (rep : Bool) (fuel : Nat)
    (w w2 : World) (h : (env.op (opCalls w.trace)).wouldBlock = true)
    (hres : alertable_socket_wait env event_bit (op env w).2 = .done false w2) :
    call_loop env event_bit rep (fuel + 1) w = .done (-1) w2 := by
  rw [call_loop_wouldBlock env event_bit rep fuel w h, hres]
  rfl

/-- Without `repeat`, a turn whose operation signals would-block and whose wait returns
`TRUE` ends the loop with `-1` as well. -/
theorem call_loop_no_repeat (env : Env) (event_bit : Nat) (fuel : Nat)
    (w w2 : World) (h : (env.op (opCalls w.trace)).wouldBlock = true)
    (hres : alertable_socket_wait env event_bit (op env w).2 = .done true w2) :
    call_loop env event_bit false (fuel + 1) w = .done (-1) w2 := by
  rw [call_loop_wouldBlock env event_bit false fuel w h, hres]
  rfl

/-- A turn whose operation does not signal would-block or pending, taken with last
error 0, ends the loop with the value of the operation. -/
theorem call_loop_not_wouldBlock (env : Env) (event_bit : Nat) (rep : Bool) (fuel : Nat)
    (w : World) (h : (env.op (opCalls w.trace)).wouldBlock = false) (hz : w.lastError = 0) :
    call_loop env event_bit rep (fuel + 1) w
      = .done (env.op (opCalls w.trace)).ret (op env w).2 := by
  by_cases hret : (env.op (opCalls w.trace)).ret = -1
  · rw [call_loop]
    have h1 : (op env w).1 = (env.op (opCalls w.trace)).ret := rfl
    have h2 : (op env w).2.lastError ≠ WSAEWOULDBLOCK ∧
        (op env w).2.lastError ≠ WSA_IO_PENDING := by
      unfold op
      generalize env.op (opCalls w.trace) = r at h hret
      simp only [OpReply.wouldBlock, hret, beq_self_eq_true, Bool.true_and,
        Bool.or_eq_false_iff, beq_eq_false_iff_ne] at h
      rcases r with ⟨ret, _ | e⟩
      · simp [hz, WSAEWOULDBLOCK, WSA_IO_PENDING]
      · simp only [stored_some]
        exact ⟨fun he => h.1 (by rw [he]), fun he => h.2 (by rw [he])⟩
    simp [h1, hret, WSAGetLastError, h2.1, h2.2]
  · exact call_loop_settled env event_bit rep fuel w hret

/-- The wrapper after `k` turns that each signal would-block and wait successfully
(`k = 0` unless `repeat` is set): the loop goes on from a world `k` invocations and `k`
waits after the switch. -/
theorem wrapper_after_rounds (env : Env) (event_bit : Nat) (rep : Bool) (init : Int)
    (fuel k : Nat) (w : World)
    (hsw : (env.ioctl (ioctlCalls w.trace)).failed = false)
    (hk : rep = false → k = 0)
    (hpre : ∀ i, i < k → (env.op (opCalls w.trace + i)).wouldBlock = true ∧
      (env.wait (waitCalls w.trace + i)).ready event_bit = true)
    (hfuel : k < fuel) :
    ∃ wk f, fuel = k + (f + 1) ∧ Extends k k (set_blocking env false w).2 wk ∧
      (k = 0 → wk = (set_blocking env false w).2) ∧ (0 < k → wk.lastError = 0) ∧
      opCalls wk.trace = opCalls w.trace + k ∧ waitCalls wk.trace = waitCalls w.trace + k ∧
      ALERTABLE_SOCKET_CALL env event_bit true rep init fuel w =
        match call_loop env event_bit rep (f + 1) wk with
        | .done ret w1 => .done ret (WSASetLastError w1.lastError (set_blocking env true w1).2)
        | .aborted w1 => .aborted w1
        | .outOfFuel => .outOfFuel := by
  obtain ⟨hc1, hc2, _⟩ := set_blocking_counts env false w
  obtain ⟨f, hf⟩ : ∃ f, fuel = k + (f + 1) := ⟨fuel - k - 1, by omega⟩
  rw [wrapper_blocking env event_bit rep init fuel w hsw]
  cases rep with
  | true =>
    have hpre' : ∀ i, i < k →
        (env.op (opCalls (set_blocking env false w).2.trace + i)).wouldBlock = true ∧
        (env.wait (waitCalls (set_blocking env false w).2.trace + i)).ready event_bit
          = true := by
      intro i hi
      rw [hc1, hc2]
      exact hpre i hi
    obtain ⟨wk, hext, hz, hpos, hloop⟩ :=
      call_loop_rounds env event_bit k (set_blocking env false w).2 hpre'
    refine ⟨wk, f, hf, hext, hz, hpos, ?_, ?_, ?_⟩
    · rw [hext.opCalls_eq, hc1]
    · rw [hext.waitCalls_eq, hc2]
    · rw [hf, hloop (f + 1)]
  | false =>
    have hk0 := hk rfl
    subst hk0
    refine ⟨(set_blocking env false w).2, f, hf, Extends.refl _, fun _ => rfl,
      fun h => absurd h (Nat.lt_irrefl 0), hc1, hc2, ?_⟩
    rw [hf, Nat.zero_add]

/-- An entry point whose `k`-th turn signals would-block and whose wait then returns
`FALSE` with a nonzero error `err` returns `SOCKET_ERROR` with that error, after `k + 1`
invocations and `k + 1` waits. -/
theorem entry_after_failed_wait (e : Entry) (env : Env) (fuel k : Nat) (w : World) (err : Int)
    (hsw : (env.ioctl (ioctlCalls w.trace)).failed = false)
    (hk : e.retries = false → k = 0)
    (hpre : ∀ i, i < k → (env.op (opCalls w.trace + i)).wouldBlock = true ∧
      (env.wait (waitCalls w.trace + i)).ready e.event_bit = true)
    (hop : (env.op (opCalls w.trace + k)).wouldBlock = true)
    (hfuel : k < fuel) (herr : err ≠ 0)
    (hwait : ∀ wk, waitCalls wk.trace = waitCalls w.trace + k →
      ∃ w2, alertable_socket_wait env e.event_bit wk = .done false w2 ∧ w2.lastError = err) :
    ∃ w', e.run env true fuel w = .done SOCKET_ERROR w' ∧ w'.lastError = err ∧
      opCalls w'.trace = opCalls w.trace + (k + 1) ∧
      waitCalls w'.trace = waitCalls w.trace + (k + 1) := by
  obtain ⟨wk, f, _, _, _, _, hopc, hwc, hrun⟩ :=
    wrapper_after_rounds env e.event_bit e.retries (-1) fuel k w hsw hk hpre hfuel
  have hop' : (env.op (opCalls wk.trace)).wouldBlock = true := by rw [hopc]; exact hop
  have hopx := op_extends env wk
  obtain ⟨w2, hres, he2⟩ := hwait (op env wk).2 (by rw [hopx.waitCalls_eq, hwc]; rfl)
  have hx := wait_extends env e.event_bit (op env wk).2
  rw [hres] at hx
  have hx2 : Extends 1 1 wk w2 := hopx.trans hx
  obtain ⟨hc1, hc2, _⟩ := set_blocking_counts env true w2
  rw [Entry.run_eq, hrun, call_loop_wait_failed env e.event_bit e.retries f wk w2 hop' hres]
  refine ⟨WSASetLastError w2.lastError (set_blocking env true w2).2, ?_, ?_, ?_, ?_⟩
  · simp [he2, herr, SOCKET_ERROR]
  · simp [he2]
  · rw [setLastError_trace, hc1, hx2.opCalls_eq, hopc, Nat.add_assoc]
  · rw [setLastError_trace, hc2, hx2.waitCalls_eq, hwc, Nat.add_assoc]

/-- An entry point without retry whose first invocation signals would-block and whose
wait returns `TRUE` returns after that one invocation with last error 0: `SOCKET_ERROR`,
or 0 from `connect`. -/
theorem entry_no_retry_after_ready_wait (e : Entry) (env : Env) (fuel : Nat) (w : World)
    (hsw : (env.ioctl (ioctlCalls w.trace)).failed = false)
    (hfuel : 0 < fuel)
    (hop : (env.op (opCalls w.trace)).wouldBlock = true)
    (hwait : (env.wait (waitCalls w.trace)).ready e.event_bit = true)
    (hrep : e.retries = false) :
    ∃ w', e.run env true fuel w = .done (if e = .connect then 0 else SOCKET_ERROR) w' ∧
      w'.lastError = 0 ∧ opCalls w'.trace = opCalls w.trace + 1 := by
  obtain ⟨wk, f, _, _, _, _, hopc, hwc, hrun⟩ :=
    wrapper_after_rounds env e.event_bit e.retries (-1) fuel 0 w hsw (fun _ => rfl)
      (fun i hi => absurd hi (Nat.not_lt_zero i)) hfuel
  have hop' : (env.op (opCalls wk.trace)).wouldBlock = true := by rw [hopc]; exact hop
  have hopx := op_extends env wk
  have hw' : (env.wait (waitCalls (op env wk).2.trace)).ready e.event_bit = true := by
    rw [hopx.waitCalls_eq, hwc]; exact hwait
  obtain ⟨w2, hres, he2⟩ := wait_ready_result env e.event_bit (op env wk).2 hw'
  have hx := wait_extends env e.event_bit (op env wk).2
  rw [hres] at hx
  obtain ⟨hc1, _, _⟩ := set_blocking_counts env true w2
  have hloop := call_loop_no_repeat env e.event_bit f wk w2 hop' hres
  rw [← hrep] at hloop
  rw [Entry.run_eq, hrun, hloop]
  refine ⟨WSASetLastError w2.lastError (set_blocking env true w2).2, ?_, ?_, ?_⟩
  · by_cases hc : e = .connect <;> simp [hc, he2, SOCKET_ERROR]
  · simp [he2]
  · rw [setLastError_trace, hc1, (hopx.trans hx).opCalls_eq, hopc]

/-! ## The claims -/

/-- C1: with `blocking` false the wrapper is the direct invocation of the operation: it
yields the value and the world (last error included) that one invocation of the
operation yields, and the log grows by that single invocation, so there is no mode
change and no wait. -/
theorem nonblocking_call_is_direct_call (env : Env) (event_bit : Nat) (rep : Bool)
    (init : Int) (fuel : Nat) (w : World) :
    ALERTABLE_SOCKET_CALL env event_bit false rep init fuel w
        = .done (op env w).1 (op env w).2 ∧
      (op env w).2.trace = w.trace ++ [.op] ∧
      (op env w).2.nonBlocking = w.nonBlocking := by
  refine ⟨rfl, ?_, ?_⟩
  · simp [op]
  · simp [op]

/-- C2: for every entry point called with `blocking` true whose switch to non-blocking
mode succeeds: when invocation `k` of the operation signals would-block or pending
(the `k` turns before it having each signalled would-block and waited successfully,
`k = 0` for the entry points without retry) and the wait that follows is woken by an
interruption, the call returns `SOCKET_ERROR` with last error `WSAEINTR`; when that
wait times out it returns `SOCKET_ERROR` with `WSAETIMEDOUT`.  In both cases the
operation has been invoked `k + 1` times in all: it is not invoked again. -/
theorem failed_wait_ends_call (e : Entry) (env : Env) (fuel k : Nat) (w : World)
    (hsw : (env.ioctl (ioctlCalls w.trace)).failed = false)
    (hk : e.retries = false → k = 0)
    (hpre : ∀ i, i < k → (env.op (opCalls w.trace + i)).wouldBlock = true ∧
      (env.wait (waitCalls w.trace + i)).ready e.event_bit = true)
    (hop : (env.op (opCalls w.trace + k)).wouldBlock = true)
    (hfuel : k < fuel) :
    ((env.wait (waitCalls w.trace + k)).interrupted = true →
      ∃ w', e.run env true fuel w = .done SOCKET_ERROR w' ∧ w'.lastError = WSAEINTR ∧
        opCalls w'.trace = opCalls w.trace + (k + 1) ∧
        waitCalls w'.trace = waitCalls w.trace + (k + 1)) ∧
    ((env.wait (waitCalls w.trace + k)).timedOut = true →
      ∃ w', e.run env true fuel w = .done SOCKET_ERROR w' ∧ w'.lastError = WSAETIMEDOUT ∧
        opCalls w'.trace = opCalls w.trace + (k + 1) ∧
        waitCalls w'.trace = waitCalls w.trace + (k + 1)) := by
  constructor
  · intro hint
    exact entry_after_failed_wait e env fuel k w WSAEINTR hsw hk hpre hop hfuel (by decide)
      (fun wk hwk => wait_interrupted_result env e.event_bit wk (by rw [hwk]; exact hint))
  · intro hto
    exact entry_after_failed_wait e env fuel k w WSAETIMEDOUT hsw hk hpre hop hfuel (by decide)
      (fun wk hwk => wait_timedOut_result env e.event_bit wk (by rw [hwk]; exact hto))

/-- Instance of C2: `recv` whose first invocation signals would-block and whose wait is
interrupted, and `send` whose first invocation signals would-block and whose wait times
out. -/
theorem failed_wait_ends_call_witness :
    (∃ w', alertable_recv envInterrupted true 3 w0 = .done SOCKET_ERROR w' ∧
      w'.lastError = WSAEINTR ∧ opCalls w'.trace = opCalls w0.trace + (0 + 1) ∧
      waitCalls w'.trace = waitCalls w0.trace + (0 + 1)) ∧
    (∃ w', alertable_send envTimedOut true 3 w0 = .done SOCKET_ERROR w' ∧
      w'.lastError = WSAETIMEDOUT ∧ opCalls w'.trace = opCalls w0.trace + (0 + 1) ∧
      waitCalls w'.trace = waitCalls w0.trace + (0 + 1)) :=
  ⟨(failed_wait_ends_call .recv envInterrupted 3 0 w0 rfl (fun h => absurd h (by decide))
      (fun i hi => absurd hi (Nat.not_lt_zero i)) rfl (by decide)).1 rfl,
    (failed_wait_ends_call .send envTimedOut 3 0 w0 rfl (fun _ => rfl)
      (fun i hi => absurd hi (Nat.not_lt_zero i)) rfl (by decide)).2 rfl⟩

/-- C3, refuted as stated: the switch succeeds, the loop of `recv` ends by an
interrupted wait, the restoring `ioctlsocket` fails, and the call returns with the
socket, blocking before the call, still in non-blocking mode. -/
theorem failed_restore_leaves_socket_nonblocking :
    (envRestoreFails.ioctl (ioctlCalls w0.trace)).failed = false ∧
      w0.nonBlocking = false ∧
      ∃ w', alertable_recv envRestoreFails true 3 w0 = .done SOCKET_ERROR w' ∧
        w'.nonBlocking = true ∧
        w'.trace = [.ioctlsocket 1, .op, .getsockopt SO_RCVTIMEO, .WSACreateEvent,
          .WSAEventSelect true 33, .WSAWaitForMultipleEvents WSA_INFINITE,
          .WSAEventSelect false 0, .WSACloseEvent, .ioctlsocket 0] :=
  ⟨by decide, rfl,
    World.mk WSAEINTR true [.ioctlsocket 1, .op, .getsockopt SO_RCVTIMEO, .WSACreateEvent,
      .WSAEventSelect true 33, .WSAWaitForMultipleEvents WSA_INFINITE,
      .WSAEventSelect false 0, .WSACloseEvent, .ioctlsocket 0],
    by decide, rfl, rfl⟩

/-- C3, amended: when the switch to non-blocking mode succeeds and the call returns, the
log of the call is the switch, then native calls none of which is an `ioctlsocket`,
then the restoring `ioctlsocket` as the very last call (so after every invocation of
the operation and every wait); the socket is in blocking mode on return when that
restoring call succeeds and still in non-blocking mode when it fails. -/
theorem restore_attempted_once_after_loop (env : Env) (event_bit : Nat) (rep : Bool)
    (init : Int) (fuel : Nat) (w : World) (r : Int) (w' : World)
    (hsw : (env.ioctl (ioctlCalls w.trace)).failed = false)
    (hrun : ALERTABLE_SOCKET_CALL env event_bit true rep init fuel w = .done r w') :
    ∃ mid, w'.trace = w.trace ++ [.ioctlsocket 1] ++ mid ++ [.ioctlsocket 0] ∧
      ioctlCalls mid = 0 ∧
      ((env.ioctl (ioctlCalls w.trace + 1)).failed = false → w'.nonBlocking = false) ∧
      ((env.ioctl (ioctlCalls w.trace + 1)).failed = true → w'.nonBlocking = true) := by
  rw [wrapper_blocking env event_bit rep init fuel w hsw] at hrun
  have hall := call_loop_extends env event_bit rep fuel (set_blocking env false w).2
  obtain ⟨_, hnb1, htr1⟩ := set_blocking_ok env false w hsw
  obtain ⟨_, _, hc3⟩ := set_blocking_counts env false w
  cases hl : call_loop env event_bit rep fuel (set_blocking env false w).2 with
  | done ret w2 =>
    rw [hl] at hrun hall
    obtain ⟨a, b, hext⟩ := hall
    have hidx : ioctlCalls w2.trace = ioctlCalls w.trace + 1 := by
      rw [hext.ioctlCalls_eq, hc3]
    obtain ⟨hnb2, mid, htr2, _, hmid, _⟩ := hext
    simp only [Run.done.injEq] at hrun
    obtain ⟨_, hw'⟩ := hrun
    subst hw'
    refine ⟨mid, ?_, hmid, ?_, ?_⟩
    · rw [setLastError_trace, set_blocking_trace, htr2, htr1]
      rfl
    · intro hok
      rw [← hidx] at hok
      rw [setLastError_nonBlocking, (set_blocking_ok env true w2 hok).2.1]
      rfl
    · intro hfail
      rw [← hidx] at hfail
      rw [setLastError_nonBlocking, (set_blocking_failed env true w2 hfail).2.1, hnb2, hnb1]
      rfl
  | aborted w2 =>
    rw [hl] at hrun
    exact absurd hrun (by simp)
  | outOfFuel =>
    rw [hl] at hrun
    exact absurd hrun (by simp)

/-- Instance of C3 amended: `recv` whose wait is interrupted and whose restoration
succeeds. -/
theorem restore_attempted_once_after_loop_witness :
    ∃ mid, (World.mk WSAEINTR false [.ioctlsocket 1, .op, .getsockopt SO_RCVTIMEO,
          .WSACreateEvent, .WSAEventSelect true 33, .WSAWaitForMultipleEvents WSA_INFINITE,
          .WSAEventSelect false 0, .WSACloseEvent, .ioctlsocket 0]).trace
        = w0.trace ++ [.ioctlsocket 1] ++ mid ++ [.ioctlsocket 0] ∧
      ioctlCalls mid = 0 ∧
      ((envInterrupted.ioctl (ioctlCalls w0.trace + 1)).failed = false →
        (World.mk WSAEINTR false [.ioctlsocket 1, .op, .getsockopt SO_RCVTIMEO,
          .WSACreateEvent, .WSAEventSelect true 33, .WSAWaitForMultipleEvents WSA_INFINITE,
          .WSAEventSelect false 0, .WSACloseEvent, .ioctlsocket 0]).nonBlocking = false) ∧
      ((envInterrupted.ioctl (ioctlCalls w0.trace + 1)).failed = true →
        (World.mk WSAEINTR false [.ioctlsocket 1, .op, .getsockopt SO_RCVTIMEO,
          .WSACreateEvent, .WSAEventSelect true 33, .WSAWaitForMultipleEvents WSA_INFINITE,
          .WSAEventSelect false 0, .WSACloseEvent, .ioctlsocket 0]).nonBlocking = true) :=
  restore_attempted_once_after_loop envInterrupted FD_READ_BIT true SOCKET_ERROR 3 w0
    SOCKET_ERROR _ (by decide) (by decide)

/-- C4, refuted as stated: the switch to non-blocking mode fails, the operation (which
would have returned 7) is not invoked at all, and `accept` returns `INVALID_SOCKET` with
the error of the failed switch. -/
theorem failed_switch_skips_operation :
    (envSwitchFails.ioctl (ioctlCalls w0.trace)).failed = true ∧
      (op envSwitchFails w0).1 = 7 ∧
      ∃ w', alertable_accept envSwitchFails true 3 w0 = .done INVALID_SOCKET w' ∧
        opCalls w'.trace = 0 ∧ w'.lastError = 10038 ∧ w'.trace = [.ioctlsocket 1] :=
  ⟨by decide, by decide, World.mk 10038 false [.ioctlsocket 1], by decide, by decide, rfl,
    rfl⟩

/-- C4, amended: when putting the socket into non-blocking mode fails, the wrapper
invokes the operation not at all; the call returns the value its result variable was
initialised with (`INVALID_SOCKET` / `SOCKET_ERROR` in every entry point) and the last
error left by the failed `ioctlsocket`, and its log holds that `ioctlsocket` only: no
wait and no restoration. -/
theorem failed_switch_returns_initial_result (env : Env) (event_bit : Nat) (rep : Bool)
    (init : Int) (fuel : Nat) (w : World)
    (hsw : (env.ioctl (ioctlCalls w.trace)).failed = true) :
    ∃ w', ALERTABLE_SOCKET_CALL env event_bit true rep init fuel w = .done init w' ∧
      w'.trace = w.trace ++ [.ioctlsocket 1] ∧
      w'.lastError = ((env.ioctl (ioctlCalls w.trace)).setErr).getD w.lastError ∧
      w'.nonBlocking = w.nonBlocking ∧
      opCalls w'.trace = opCalls w.trace := by
  obtain ⟨h1, h2, h3⟩ := set_blocking_failed env false w hsw
  refine ⟨(set_blocking env false w).2, ?_, h3, ?_, h2, ?_⟩
  · unfold ALERTABLE_SOCKET_CALL
    simp only [h1]
    rfl
  · unfold set_blocking ioctlsocket
    simp only [hsw]
    cases (env.ioctl (ioctlCalls w.trace)).setErr <;> rfl
  · rw [h3, opCalls_append]
    rfl

/-- Instance of C4 amended: `accept` when the switch fails with `WSAENOTSOCK`. -/
theorem failed_switch_returns_initial_result_witness :
    ∃ w', ALERTABLE_SOCKET_CALL envSwitchFails FD_ACCEPT_BIT true true INVALID_SOCKET 3 w0
        = .done INVALID_SOCKET w' ∧
      w'.trace = w0.trace ++ [.ioctlsocket 1] ∧
      w'.lastError = ((envSwitchFails.ioctl (ioctlCalls w0.trace)).setErr).getD w0.lastError ∧
      w'.nonBlocking = w0.nonBlocking ∧
      opCalls w'.trace = opCalls w0.trace :=
  failed_switch_returns_initial_result envSwitchFails FD_ACCEPT_BIT true INVALID_SOCKET 3 w0
    (by decide)

/-- C5: source line 68 tests the fired bits against `FD_CLOSE_BIT` (5) where the mask
`FD_CLOSE` (32) is meant.  At a record in which only `FD_CLOSE` fired, carrying
`WSAECONNRESET`, the wait for `FD_READ` returns `TRUE` with last error 0, where the
claim has it fail with the error code of the Close bit. -/
theorem close_error_reported_as_ready :
    closeErrorReply.fired = true ∧
      closeErrorReply.ne.lNetworkEvents &&& (1 <<< FD_READ_BIT) = 0 ∧
      closeErrorReply.ne.lNetworkEvents &&& FD_CLOSE ≠ 0 ∧
      closeErrorReply.ne.iErrorCode FD_CLOSE_BIT = 10054 ∧
      alertable_socket_wait envCloseError FD_READ_BIT w0 =
        .done true
          { lastError := 0
            nonBlocking := false
            trace := [.getsockopt SO_RCVTIMEO, .WSACreateEvent, .WSAEventSelect true 33,
              .WSAWaitForMultipleEvents WSA_INFINITE, .WSAEnumNetworkEvents,
              .WSAEventSelect false 0, .WSACloseEvent] } := by
  decide

/-- C6, refuted as stated: `send` signals would-block, the wait reports ready, and the
call returns `SOCKET_ERROR` with last error 0 after that single invocation; every
invocation made signalled would-block, and the send that would have returned 5 is never
made. -/
theorem send_not_retried_after_ready_wait :
    (envOnce.ioctl (ioctlCalls w0.trace)).failed = false ∧
      (envOnce.op 0).wouldBlock = true ∧
      (envOnce.wait 0).ready FD_WRITE_BIT = true ∧
      (envOnce.op 1).ret = 5 ∧
      ∃ w', alertable_send envOnce true 3 w0 = .done SOCKET_ERROR w' ∧
        w'.lastError = 0 ∧ opCalls w'.trace = 1 ∧
        (∀ k, k < opCalls w'.trace → (envOnce.op k).wouldBlock = true) ∧
        w'.trace = [.ioctlsocket 1, .op, .getsockopt SO_SNDTIMEO, .WSACreateEvent,
          .WSAEventSelect true 34, .WSAWaitForMultipleEvents WSA_INFINITE,
          .WSAEnumNetworkEvents, .WSAEventSelect false 0, .WSACloseEvent, .ioctlsocket 0] :=
  ⟨by decide, by decide, by decide, by decide,
    World.mk 0 false [.ioctlsocket 1, .op, .getsockopt SO_SNDTIMEO, .WSACreateEvent,
      .WSAEventSelect true 34, .WSAWaitForMultipleEvents WSA_INFINITE,
      .WSAEnumNetworkEvents, .WSAEventSelect false 0, .WSACloseEvent, .ioctlsocket 0],
    by decide, rfl, by decide, by decide, rfl⟩

/-- C6, amended: for the entry points with retry (`accept`, `recv`, `recvfrom`,
`WSARecv`), when the first `n ≥ 1` invocations signal would-block or pending, each
following wait reports ready, and invocation `n` does not signal would-block or pending,
the call returns the value of that invocation.  For the entry points without retry
(`connect`, `send`, `sendto`, `WSASend`) the operation is not invoked again after the
wait: the call returns with last error 0 after one invocation, `SOCKET_ERROR` from the
three sends and 0 from `connect`. -/
theorem ready_wait_result (e : Entry) (env : Env) (fuel n : Nat) (w : World)
    (hsw : (env.ioctl (ioctlCalls w.trace)).failed = false)
    (hfuel : n < fuel)
    (hop : (env.op (opCalls w.trace)).wouldBlock = true)
    (hwait : (env.wait (waitCalls w.trace)).ready e.event_bit = true) :
    (e.retries = true → 0 < n →
      (∀ i, i < n → (env.op (opCalls w.trace + i)).wouldBlock = true ∧
        (env.wait (waitCalls w.trace + i)).ready e.event_bit = true) →
      (env.op (opCalls w.trace + n)).wouldBlock = false →
      ∃ w', e.run env true fuel w = .done (env.op (opCalls w.trace + n)).ret w' ∧
        opCalls w'.trace = opCalls w.trace + (n + 1)) ∧
    (e.retries = false →
      ∃ w', e.run env true fuel w = .done (if e = .connect then 0 else SOCKET_ERROR) w' ∧
        w'.lastError = 0 ∧ opCalls w'.trace = opCalls w.trace + 1) := by
  constructor
  · intro hrep hn hpre hlast
    obtain ⟨wk, f, _, _, _, hz, hopc, _, hrun⟩ :=
      wrapper_after_rounds env e.event_bit e.retries (-1) fuel n w hsw
        (fun h => absurd (hrep.symm.trans h) (by decide)) hpre hfuel
    have hlast' : (env.op (opCalls wk.trace)).wouldBlock = false := by rw [hopc]; exact hlast
    have hne : e ≠ .connect := by
      intro h; rw [h] at hrep; exact absurd hrep (by decide)
    obtain ⟨hc1, _, _⟩ := set_blocking_counts env true (op env wk).2
    rw [Entry.run_eq, hrun,
      call_loop_not_wouldBlock env e.event_bit e.retries f wk hlast' (hz hn)]
    refine ⟨WSASetLastError (op env wk).2.lastError (set_blocking env true (op env wk).2).2,
      ?_, ?_⟩
    · simp [hne, hopc]
    · rw [setLastError_trace, hc1, (op_extends env wk).opCalls_eq, hopc, Nat.add_assoc]
  · intro hrep
    exact entry_no_retry_after_ready_wait e env fuel w hsw
      (Nat.lt_of_le_of_lt (Nat.zero_le n) hfuel) hop hwait hrep

/-- Instance of C6 amended: `recv` returns the 5 of its second invocation, and `send`
returns `SOCKET_ERROR` with last error 0. -/
theorem ready_wait_result_witness :
    (∃ w', alertable_recv envOnce true 3 w0 = .done (envOnce.op (opCalls w0.trace + 1)).ret w' ∧
        opCalls w'.trace = opCalls w0.trace + (1 + 1)) ∧
      (∃ w', alertable_send envOnce true 3 w0
          = .done (if Entry.send = Entry.connect then 0 else SOCKET_ERROR) w' ∧
        w'.lastError = 0 ∧ opCalls w'.trace = opCalls w0.trace + 1) :=
  ⟨(ready_wait_result .recv envOnce 3 1 w0 rfl (by decide) rfl rfl).1 rfl (by decide)
      (by decide) rfl,
    (ready_wait_result .send envOnce 3 1 w0 rfl (by decide) rfl rfl).2 rfl⟩

/-- The timeout resolver: infinite when the query fails or the value is 0, the value
otherwise. -/
theorem get_socket_timeout_value (env : Env) (optname : Int) (w : World) :
    (get_socket_timeout env optname w).1 =
      if (env.getsockopt (sockoptCalls w.trace) optname).failed = true ∨
          (env.getsockopt (sockoptCalls w.trace) optname).value = 0
      then WSA_INFINITE else (env.getsockopt (sockoptCalls w.trace) optname).value := by
  unfold get_socket_timeout getsockopt
  generalize env.getsockopt (sockoptCalls w.trace) optname = r
  rcases r with ⟨f, e, v⟩
  cases f
  · by_cases hv : v = 0
    · simp [hv, SOCKET_ERROR]
    · simp [hv, SOCKET_ERROR]
  · simp [SOCKET_ERROR]

theorem waitTimeouts_append (a b : List Event) :
    waitTimeouts (a ++ b) = waitTimeouts a ++ waitTimeouts b := by
  simp [waitTimeouts]

theorem get_socket_timeout_waitTimeouts (env : Env) (optname : Int) (w : World) :
    waitTimeouts (get_socket_timeout env optname w).2.trace = waitTimeouts w.trace := by
  have h : ∀ o, waitTimeouts ((w.emit (.getsockopt optname)).stored o).trace
      = waitTimeouts w.trace := by
    intro o
    rw [stored_trace, emit_trace, waitTimeouts_append]
    exact List.append_nil _
  unfold get_socket_timeout getsockopt
  simp only []
  split_ifs <;> exact h _

theorem wait_leave_timeouts (r : WaitReply) (success : Bool) (error : Int) (w : World) :
    ∃ w', wait_leave r success error w = .done success w' ∧
      waitTimeouts w'.trace = waitTimeouts w.trace := by
  unfold wait_leave statusCall
  refine ⟨_, rfl, ?_⟩
  simp only [apply_ite World.trace, setLastError_trace, stored_trace, emit_trace, ite_self,
    waitTimeouts_append]
  exact (List.append_nil _).trans (List.append_nil _)

/-- C7: the timeout handed to `WSAWaitForMultipleEvents` is, for `FD_READ_BIT`, what
`get_socket_timeout` resolves for `SO_RCVTIMEO`, for `FD_WRITE_BIT` what it resolves for
`SO_SNDTIMEO`, and `WSA_INFINITE` for `FD_ACCEPT_BIT` and `FD_CONNECT_BIT`, whatever the
socket options answer; `get_socket_timeout` resolves `WSA_INFINITE` when `getsockopt`
fails or writes 0 and the written value otherwise, and never resolves 0. -/
theorem wait_timeout_resolution (env : Env) (event_bit : Nat) (w : World)
    (hbit : event_bit = FD_READ_BIT ∨ event_bit = FD_WRITE_BIT ∨ event_bit = FD_ACCEPT_BIT ∨
      event_bit = FD_CONNECT_BIT)
    (hw : (env.wait (waitCalls w.trace)).waits = true) :
    (∀ optname, (get_socket_timeout env optname w).1 =
      if (env.getsockopt (sockoptCalls w.trace) optname).failed = true ∨
          (env.getsockopt (sockoptCalls w.trace) optname).value = 0
      then WSA_INFINITE else (env.getsockopt (sockoptCalls w.trace) optname).value) ∧
    (∀ optname, (get_socket_timeout env optname w).1 ≠ 0) ∧
    ∃ w', (alertable_socket_wait env event_bit w = .aborted w' ∨
        ∃ b, alertable_socket_wait env event_bit w = .done b w') ∧
      waitTimeouts w'.trace = waitTimeouts w.trace ++
        [if event_bit = FD_READ_BIT then (get_socket_timeout env SO_RCVTIMEO w).1
         else if event_bit = FD_WRITE_BIT then (get_socket_timeout env SO_SNDTIMEO w).1
         else WSA_INFINITE] := by
  refine ⟨fun o => get_socket_timeout_value env o w, ?_, ?_⟩
  · intro optname
    rw [get_socket_timeout_value]
    split_ifs with h
    · decide
    · exact fun hv => h (Or.inr hv)
  · have htw : ∀ tw : Nat × World,
        tw = (if event_bit == FD_READ_BIT || event_bit == FD_WRITE_BIT then
          get_socket_timeout env (if event_bit == FD_READ_BIT then SO_RCVTIMEO
            else SO_SNDTIMEO) w
        else (WSA_INFINITE, w)) →
        waitTimeouts tw.2.trace = waitTimeouts w.trace ∧
        tw.1 = (if event_bit = FD_READ_BIT then (get_socket_timeout env SO_RCVTIMEO w).1
          else if event_bit = FD_WRITE_BIT then (get_socket_timeout env SO_SNDTIMEO w).1
          else WSA_INFINITE) := by
      intro tw htw
      subst htw
      rcases hbit with h | h | h | h <;> subst h
      · exact ⟨get_socket_timeout_waitTimeouts _ _ _, rfl⟩
      · exact ⟨get_socket_timeout_waitTimeouts _ _ _, rfl⟩
      · exact ⟨rfl, rfl⟩
      · exact ⟨rfl, rfl⟩
    unfold alertable_socket_wait
    generalize env.wait (waitCalls w.trace) = r at hw
    generalize (if (event_bit == FD_READ_BIT || event_bit == FD_WRITE_BIT) = true then
        get_socket_timeout env (if (event_bit == FD_READ_BIT) = true then SO_RCVTIMEO
          else SO_SNDTIMEO) w
      else (WSA_INFINITE, w)) = tw at htw ⊢
    obtain ⟨h1, h2⟩ := htw tw rfl
    simp only [WaitReply.waits, Bool.and_eq_true, Bool.not_eq_true'] at hw
    obtain ⟨hc, hs⟩ := hw
    rw [← h2]
    have h3 : ∀ o1 o2 o3, waitTimeouts (((((((WSASetLastError 0 tw.2).emit
        .WSACreateEvent).stored o1).emit
        (.WSAEventSelect true ((1 <<< event_bit) ||| FD_CLOSE))).stored o2).emit
        (.WSAWaitForMultipleEvents tw.1)).stored o3).trace
        = waitTimeouts w.trace ++ [tw.1] := by
      intro o1 o2 o3
      simp only [setLastError_trace, stored_trace, emit_trace, waitTimeouts_append, h1]
      simp [waitTimeouts]
    have h4 : ∀ (w3 : World) (o4 : Option Int),
        waitTimeouts w3.trace = waitTimeouts w.trace ++ [tw.1] →
        waitTimeouts ((w3.emit .WSAEnumNetworkEvents).stored o4).trace
          = waitTimeouts w.trace ++ [tw.1] := by
      intro w3 o4 hw3
      rw [stored_trace, emit_trace, waitTimeouts_append, hw3]
      exact List.append_nil _
    simp only [statusCall, hc, hs, Bool.not_false, if_true]
    split_ifs
    all_goals
      first
        | exact ⟨_, Or.inl rfl, h3 _ _ _⟩
        | (obtain ⟨w', he, ht⟩ := wait_leave_timeouts r false WSAEINTR _
           exact ⟨w', Or.inr ⟨_, he⟩, ht.trans (h3 _ _ _)⟩)
        | (obtain ⟨w', he, ht⟩ := wait_leave_timeouts r false WSAETIMEDOUT _
           exact ⟨w', Or.inr ⟨_, he⟩, ht.trans (h3 _ _ _)⟩)
        | (obtain ⟨w', he, ht⟩ := wait_leave_timeouts r false (r.ne.iErrorCode event_bit) _
           exact ⟨w', Or.inr ⟨_, he⟩, ht.trans (h4 _ _ (h3 _ _ _))⟩)
        | (obtain ⟨w', he, ht⟩ := wait_leave_timeouts r false (r.ne.iErrorCode FD_CLOSE_BIT) _
           exact ⟨w', Or.inr ⟨_, he⟩, ht.trans (h4 _ _ (h3 _ _ _))⟩)
        | (obtain ⟨w', he, ht⟩ := wait_leave_timeouts r true 0 _
           exact ⟨w', Or.inr ⟨_, he⟩, ht.trans (h4 _ _ (h3 _ _ _))⟩)
        | (obtain ⟨w', he, ht⟩ := wait_leave_timeouts r false (-1) _
           exact ⟨w', Or.inr ⟨_, he⟩, ht.trans (h4 _ _ (h3 _ _ _))⟩)

/-- Instance of C7: a wait for `FD_WRITE` on a socket whose send timeout is 250 ms. -/
theorem wait_timeout_resolution_witness :
    (get_socket_timeout envTimeouts SO_SNDTIMEO w0).1 = 250 ∧
      ∃ w', (alertable_socket_wait envTimeouts FD_WRITE_BIT w0 = .aborted w' ∨
          ∃ b, alertable_socket_wait envTimeouts FD_WRITE_BIT w0 = .done b w') ∧
        waitTimeouts w'.trace = waitTimeouts w0.trace ++
          [if FD_WRITE_BIT = FD_READ_BIT then (get_socket_timeout envTimeouts SO_RCVTIMEO w0).1
           else if FD_WRITE_BIT = FD_WRITE_BIT then
             (get_socket_timeout envTimeouts SO_SNDTIMEO w0).1
           else WSA_INFINITE] :=
  ⟨by decide,
    (wait_timeout_resolution envTimeouts FD_WRITE_BIT w0 (Or.inr (Or.inl rfl)) rfl).2.2⟩

/-- C8: when the switch to non-blocking mode succeeds and the retry loop ends with
value `ret` in world `w2`, the call returns `ret` with the last error of `w2`, whatever
the restoring `ioctlsocket` answers and whatever error code it stores. -/
theorem restore_keeps_loop_error (env : Env) (event_bit : Nat) (rep : Bool) (init : Int)
    (fuel : Nat) (w : World) (ret : Int) (w2 : World)
    (hsw : (env.ioctl (ioctlCalls w.trace)).failed = false)
    (hloop : call_loop env event_bit rep fuel (set_blocking env false w).2 = .done ret w2) :
    ∃ w3, ALERTABLE_SOCKET_CALL env event_bit true rep init fuel w = .done ret w3 ∧
      w3.lastError = WSAGetLastError w2 ∧
      w3.trace = w2.trace ++ [.ioctlsocket 0] := by
  rw [wrapper_blocking env event_bit rep init fuel w hsw, hloop]
  exact ⟨_, rfl, rfl, set_blocking_trace env true w2⟩

/-- Instance of C8: the loop of `recv` ends on an interrupted wait with `WSAEINTR`; the
restoration fails and stores `WSAEINVAL`; the call still reports `WSAEINTR`. -/
theorem restore_keeps_loop_error_witness :
    (envRestoreFails.ioctl 1).failed = true ∧ (envRestoreFails.ioctl 1).setErr = some 10022 ∧
      ∃ w3, ALERTABLE_SOCKET_CALL envRestoreFails FD_READ_BIT true true SOCKET_ERROR 3 w0
          = .done SOCKET_ERROR w3 ∧
        w3.lastError = WSAGetLastError
          (World.mk WSAEINTR true [.ioctlsocket 1, .op, .getsockopt SO_RCVTIMEO,
            .WSACreateEvent, .WSAEventSelect true 33, .WSAWaitForMultipleEvents WSA_INFINITE,
            .WSAEventSelect false 0, .WSACloseEvent]) ∧
        w3.trace = (World.mk WSAEINTR true [.ioctlsocket 1, .op, .getsockopt SO_RCVTIMEO,
            .WSACreateEvent, .WSAEventSelect true 33, .WSAWaitForMultipleEvents WSA_INFINITE,
            .WSAEventSelect false 0, .WSACloseEvent]).trace ++ [.ioctlsocket 0] :=
  ⟨rfl, rfl,
    restore_keeps_loop_error envRestoreFails FD_READ_BIT true SOCKET_ERROR 3 w0 SOCKET_ERROR _
      (by decide) (by decide)⟩

/-- C9: with `blocking` and `repeat` set and the switch to non-blocking mode
successful, when the first `n` invocations of the operation each signal would-block,
each following wait reports ready, and the next invocation returns `r` other than `-1`,
the call, given fuel for `n + 1` turns, returns `r` after exactly `n + 1` invocations
and `n` waits; `accept`, `recv`, `recvfrom` and `WSARecv` are such calls. -/
theorem retry_loop_returns_completed_result (env : Env) (event_bit : Nat) (init : Int)
    (fuel n : Nat) (w : World) (r : Int)
    (hsw : (env.ioctl (ioctlCalls w.trace)).failed = false)
    (hpre : ∀ i, i < n → (env.op (opCalls w.trace + i)).wouldBlock = true ∧
      (env.wait (waitCalls w.trace + i)).ready event_bit = true)
    (hret : (env.op (opCalls w.trace + n)).ret = r) (hr : r ≠ -1)
    (hfuel : n < fuel) :
    ∃ w', ALERTABLE_SOCKET_CALL env event_bit true true init fuel w = .done r w' ∧
      opCalls w'.trace = opCalls w.trace + (n + 1) ∧
      waitCalls w'.trace = waitCalls w.trace + n ∧
      ∀ e : Entry, e.retries = true → e.event_bit = event_bit →
        e.run env true fuel w = .done r w' := by
  obtain ⟨wk, f, _, _, _, _, hopc, hwc, hrun⟩ :=
    wrapper_after_rounds env event_bit true init fuel n w hsw
      (fun h => absurd h (by decide)) hpre hfuel
  have hret' : (env.op (opCalls wk.trace)).ret ≠ -1 := by rw [hopc, hret]; exact hr
  have hloop := call_loop_settled env event_bit true f wk hret'
  rw [hopc, hret] at hloop
  obtain ⟨hc1, hc2, _⟩ := set_blocking_counts env true (op env wk).2
  have hopx := op_extends env wk
  refine ⟨WSASetLastError (op env wk).2.lastError (set_blocking env true (op env wk).2).2,
    ?_, ?_, ?_, ?_⟩
  · rw [hrun, hloop]
  · rw [setLastError_trace, hc1, hopx.opCalls_eq, hopc, Nat.add_assoc]
  · rw [setLastError_trace, hc2, hopx.waitCalls_eq, hwc]
    rfl
  · intro e he hb
    have hne : e ≠ .connect := by
      intro h; rw [h] at he; exact absurd he (by decide)
    rw [Entry.run_eq, he, hb, wrapper_blocking env event_bit true (-1) fuel w hsw]
    rw [wrapper_blocking env event_bit true init fuel w hsw] at hrun
    rw [hrun, hloop]
    simp [hne]

/-- Instance of C9: `accept` with two would-block answers before a connection
arrives. -/
theorem retry_loop_returns_completed_result_witness :
    ∃ w', ALERTABLE_SOCKET_CALL envTwice FD_ACCEPT_BIT true true INVALID_SOCKET 5 w0
        = .done 5 w' ∧
      opCalls w'.trace = opCalls w0.trace + (2 + 1) ∧
      waitCalls w'.trace = waitCalls w0.trace + 2 ∧
      ∀ e : Entry, e.retries = true → e.event_bit = FD_ACCEPT_BIT →
        e.run envTwice true 5 w0 = .done 5 w' :=
  retry_loop_returns_completed_result envTwice FD_ACCEPT_BIT INVALID_SOCKET 5 2 w0 5
    (by decide) (by decide) (by decide) (by decide) (by decide)

/-- A wait ends: it returns or it aborts on the assertion of line 62. -/
theorem wait_ends (env : Env) (event_bit : Nat) (w : World) :
    alertable_socket_wait env event_bit w ≠ .outOfFuel := by
  have h : (match alertable_socket_wait env event_bit w with
      | .outOfFuel => False
      | _ => True) := by
    unfold alertable_socket_wait
    generalize env.wait (waitCalls w.trace) = r
    generalize (if (event_bit == FD_READ_BIT || event_bit == FD_WRITE_BIT) = true then
        get_socket_timeout env (if (event_bit == FD_READ_BIT) = true then SO_RCVTIMEO
          else SO_SNDTIMEO) w
      else (WSA_INFINITE, w)) = tw
    simp only []
    split_ifs <;> exact True.intro
  intro hc
  rw [hc] at h
  exact h

/-- Without `repeat` the loop ends within its first turn. -/
theorem call_loop_no_repeat_ends (env : Env) (event_bit : Nat) (fuel : Nat) (w : World) :
    call_loop env event_bit false (fuel + 1) w ≠ .outOfFuel := by
  rw [call_loop]
  simp only []
  split_ifs
  · exact fun h => Run.noConfusion h
  · have hw := wait_ends env event_bit (op env w).2
    cases h : alertable_socket_wait env event_bit (op env w).2 with
    | done b w2 => cases b <;> exact fun h => Run.noConfusion h
    | aborted w2 => exact fun h => Run.noConfusion h
    | outOfFuel => exact absurd h hw
  · exact fun h => Run.noConfusion h

/-- C10: `alertable_connect` is `ALERTABLE_SOCKET_CALL` at `FD_CONNECT_BIT` without
`repeat`, its value replaced by a test of the last error the wrapper leaves: whenever
the wrapper returns, with whatever value `v`, in world `w1`, `alertable_connect` returns
in that same world 0 if the last error of `w1` is 0 and `SOCKET_ERROR` otherwise, and it
returns in no other case; given fuel for one turn the call ends, blocking or not.
Without `blocking` that is the test of the last error after the one native call.  A
blocking `connect` whose switch succeeds, whose native call signals would-block and
whose wait for `FD_CONNECT` reports ready makes the wrapper return the `SOCKET_ERROR` of
the native call with last error 0 after that single invocation, and `alertable_connect`
returns 0 with last error 0. -/
theorem connect_result_tests_last_error (env : Env) (blocking : Bool) (fuel : Nat)
    (w : World) :
    alertable_connect env blocking fuel w =
      (match ALERTABLE_SOCKET_CALL env FD_CONNECT_BIT blocking false SOCKET_ERROR fuel w with
        | .done _ w1 => .done (if w1.lastError = 0 then 0 else SOCKET_ERROR) w1
        | .aborted w1 => .aborted w1
        | .outOfFuel => .outOfFuel) ∧
    (∀ v w1, ALERTABLE_SOCKET_CALL env FD_CONNECT_BIT blocking false SOCKET_ERROR fuel w
        = .done v w1 →
      ∃ r, alertable_connect env blocking fuel w = .done r w1 ∧
        (r = 0 ↔ w1.lastError = 0) ∧ (w1.lastError ≠ 0 → r = SOCKET_ERROR)) ∧
    (∀ r w', alertable_connect env blocking fuel w = .done r w' →
      (∃ v, ALERTABLE_SOCKET_CALL env FD_CONNECT_BIT blocking false SOCKET_ERROR fuel w
        = .done v w') ∧
      (r = 0 ↔ w'.lastError = 0) ∧ (w'.lastError ≠ 0 → r = SOCKET_ERROR)) ∧
    (0 < fuel → alertable_connect env blocking fuel w ≠ .outOfFuel) ∧
    (ALERTABLE_SOCKET_CALL env FD_CONNECT_BIT false false SOCKET_ERROR fuel w
        = .done (op env w).1 (op env w).2 ∧
      alertable_connect env false fuel w
        = .done (if (op env w).2.lastError = 0 then 0 else SOCKET_ERROR) (op env w).2) ∧
    (blocking = true → (env.ioctl (ioctlCalls w.trace)).failed = false →
      (env.op (opCalls w.trace)).wouldBlock = true →
      (env.wait (waitCalls w.trace)).ready FD_CONNECT_BIT = true → 0 < fuel →
      ∃ w', ALERTABLE_SOCKET_CALL env FD_CONNECT_BIT blocking false SOCKET_ERROR fuel w
          = .done SOCKET_ERROR w' ∧
        alertable_connect env blocking fuel w = .done 0 w' ∧ w'.lastError = 0 ∧
        opCalls w'.trace = opCalls w.trace + 1) := by
  have hall : ∀ b : Bool, alertable_connect env b fuel w =
      (match ALERTABLE_SOCKET_CALL env FD_CONNECT_BIT b false SOCKET_ERROR fuel w with
        | .done _ w1 => .done (if w1.lastError = 0 then 0 else SOCKET_ERROR) w1
        | .aborted w1 => .aborted w1
        | .outOfFuel => .outOfFuel) := by
    intro b
    unfold alertable_connect
    cases ALERTABLE_SOCKET_CALL env FD_CONNECT_BIT b false SOCKET_ERROR fuel w with
    | done v w1 =>
      by_cases hz : w1.lastError = 0
      · simp [WSAGetLastError, hz]
      · simp [WSAGetLastError, hz]
    | aborted w1 => rfl
    | outOfFuel => rfl
  have heq := hall blocking
  have hval : ∀ w1 : World, ((if w1.lastError = 0 then (0 : Int) else SOCKET_ERROR) = 0 ↔
      w1.lastError = 0) ∧
      (w1.lastError ≠ 0 → (if w1.lastError = 0 then (0 : Int) else SOCKET_ERROR)
        = SOCKET_ERROR) := by
    intro w1
    by_cases hz : w1.lastError = 0
    · simp [hz]
    · simp [hz, SOCKET_ERROR]
  refine ⟨heq, ?_, ?_, ?_, ⟨rfl, ?_⟩, ?_⟩
  · intro v w1 hc
    rw [heq, hc]
    exact ⟨_, rfl, hval w1⟩
  · intro r w' h
    rw [heq] at h
    cases hc : ALERTABLE_SOCKET_CALL env FD_CONNECT_BIT blocking false SOCKET_ERROR fuel w with
    | done v w1 =>
      rw [hc] at h
      simp only [Run.done.injEq] at h
      obtain ⟨hr, hw⟩ := h
      subst hw
      subst hr
      exact ⟨⟨v, rfl⟩, hval w1⟩
    | aborted w1 => rw [hc] at h; exact absurd h (by simp)
    | outOfFuel => rw [hc] at h; exact absurd h (by simp)
  · intro hfuel
    obtain ⟨f, hf⟩ : ∃ f, fuel = f + 1 := ⟨fuel - 1, by omega⟩
    subst hf
    have hw : ALERTABLE_SOCKET_CALL env FD_CONNECT_BIT blocking false SOCKET_ERROR (f + 1) w
        ≠ .outOfFuel := by
      cases blocking with
      | false => exact fun h => Run.noConfusion h
      | true =>
        cases hsw : (env.ioctl (ioctlCalls w.trace)).failed with
        | false =>
          rw [wrapper_blocking env FD_CONNECT_BIT false SOCKET_ERROR (f + 1) w hsw]
          have hl := call_loop_no_repeat_ends env FD_CONNECT_BIT f (set_blocking env false w).2
          cases hc : call_loop env FD_CONNECT_BIT false (f + 1) (set_blocking env false w).2 with
          | done v w1 => exact fun h => Run.noConfusion h
          | aborted w1 => exact fun h => Run.noConfusion h
          | outOfFuel => exact absurd hc hl
        | true =>
          unfold ALERTABLE_SOCKET_CALL
          simp only [(set_blocking_failed env false w hsw).1]
          exact fun h => Run.noConfusion h
    rw [heq]
    cases hc : ALERTABLE_SOCKET_CALL env FD_CONNECT_BIT blocking false SOCKET_ERROR (f + 1) w with
    | done v w1 => exact fun h => Run.noConfusion h
    | aborted w1 => exact fun h => Run.noConfusion h
    | outOfFuel => exact absurd hc hw
  · rw [hall false]
    rfl
  · intro hb hsw hop hwait hfuel
    subst hb
    obtain ⟨wk, f, _, _, _, _, hopc, hwc, hrun⟩ :=
      wrapper_after_rounds env FD_CONNECT_BIT false SOCKET_ERROR fuel 0 w hsw (fun _ => rfl)
        (fun i hi => absurd hi (Nat.not_lt_zero i)) hfuel
    have hop' : (env.op (opCalls wk.trace)).wouldBlock = true := by rw [hopc]; exact hop
    have hopx := op_extends env wk
    have hw' : (env.wait (waitCalls (op env wk).2.trace)).ready FD_CONNECT_BIT = true := by
      rw [hopx.waitCalls_eq, hwc]; exact hwait
    obtain ⟨w2, hres, he2⟩ := wait_ready_result env FD_CONNECT_BIT (op env wk).2 hw'
    have hx := wait_extends env FD_CONNECT_BIT (op env wk).2
    rw [hres] at hx
    obtain ⟨hc1, _, _⟩ := set_blocking_counts env true w2
    have hloop := call_loop_no_repeat env FD_CONNECT_BIT f wk w2 hop' hres
    rw [hloop] at hrun
    have hl : (WSASetLastError w2.lastError (set_blocking env true w2).2).lastError = 0 := he2
    refine ⟨WSASetLastError w2.lastError (set_blocking env true w2).2, hrun, ?_, hl, ?_⟩
    · rw [heq, hrun]
      simp [he2]
    · rw [setLastError_trace, hc1, (hopx.trans hx).opCalls_eq, hopc]

/-- Instance of C10: a blocking `connect` that signals would-block and whose wait
reports ready; the wrapper hands back the `SOCKET_ERROR` of the native call and
`alertable_connect` returns 0. -/
theorem connect_result_tests_last_error_witness :
    ∃ w', ALERTABLE_SOCKET_CALL envOnce FD_CONNECT_BIT true false SOCKET_ERROR 3 w0
        = .done SOCKET_ERROR w' ∧
      alertable_connect envOnce true 3 w0 = .done 0 w' ∧ w'.lastError = 0 ∧
      opCalls w'.trace = opCalls w0.trace + 1 :=
  (connect_result_tests_last_error envOnce true 3 w0).2.2.2.2.2 rfl rfl rfl rfl (by decide)

end SocketIoWindows
